import Mathlib

/-! MIDI message library: embedding of `midi.c` / `midi.h`.

Conventions of the embedding.

* A `uint8_t` value is a `Nat`; the only place where the source can leave the
  range `0..255` is the assignment `first_byte = command + channel`, which is
  modelled with an explicit `% 256`.  (`bytes_count++` is kept with its `% 256`
  too, although it never exceeds 3.)
* A pointer argument is an `Option`: `none` is `NULL`, `some v` is a valid
  pointer whose pointee currently holds `v`.
* The memory `msg` points to is a three byte buffer `Buf` (the source never
  touches `msg[3]` or beyond; `midi_send` declares `unsigned char msg[3]`).
* The transport `serial_write` is an external, effectful function.  Its
  effect is made explicit by threading a world state of an arbitrary type
  `σ`: a transport maps the buffer, the count and the world before the call
  to the reported count and the world after the call.  The world changes only
  through calls of the transport.
-/

namespace Midi

/-! ## midi.h -/

/-- The bytes `msg[0]`, `msg[1]`, `msg[2]` of the memory a `msg` pointer
refers to. -/
structure Buf where
  b0 : Nat
  b1 : Nat
  b2 : Nat
deriving DecidableEq, Repr

/-- The buffer as a list of bytes, index 0 first. -/
def Buf.toList (b : Buf) : List Nat := [b.b0, b.b1, b.b2]

/-- The message a buffer holds when its reported length is `n`: its first `n`
bytes. -/
def Buf.message (b : Buf) (n : Nat) : List Nat := b.toList.take n

/-- Type of `uint8_t (*serial_write)(unsigned char *, uint8_t)`. -/
abbrev Transport (σ : Type) : Type := Buf → Nat → σ → Nat × σ

/-- Embedding of `struct midi`. -/
structure midi (σ : Type) where
  serial_write : Option (Transport σ)

def MIDI_CMD_NOTE_OFF : Nat := 0x80
def MIDI_CMD_NOTE_ON : Nat := 0x90
def MIDI_CMD_AFTERTOUCH : Nat := 0xA0
def MIDI_CMD_CONTROL_CHANGE : Nat := 0xB0
def MIDI_CMD_PROGRAM_CHANGE : Nat := 0xC0
def MIDI_CMD_CHANNEL_PRESSUER : Nat := 0xD0
def MIDI_CMD_PITCH_BEND : Nat := 0xE0
def MIDI_CMD_NON_MUSICAL : Nat := 0xF0

/-- The enumerators of `enum midi_commands`, in declaration order. -/
def midi_commands : List Nat :=
  [MIDI_CMD_NOTE_OFF, MIDI_CMD_NOTE_ON, MIDI_CMD_AFTERTOUCH,
   MIDI_CMD_CONTROL_CHANGE, MIDI_CMD_PROGRAM_CHANGE,
   MIDI_CMD_CHANNEL_PRESSUER, MIDI_CMD_PITCH_BEND, MIDI_CMD_NON_MUSICAL]

/-! ## midi.c -/

/-- Embedding of `validate_command`: 0 if the value is one of the eight
`case` labels of the switch, -1 (the `default:` branch) otherwise. -/
def validate_command (command : Nat) : Int :=
  if command = MIDI_CMD_NOTE_OFF ∨ command = MIDI_CMD_NOTE_ON
      ∨ command = MIDI_CMD_AFTERTOUCH ∨ command = MIDI_CMD_CONTROL_CHANGE
      ∨ command = MIDI_CMD_PROGRAM_CHANGE ∨ command = MIDI_CMD_CHANNEL_PRESSUER
      ∨ command = MIDI_CMD_PITCH_BEND ∨ command = MIDI_CMD_NON_MUSICAL then
    0
  else
    -1

/-- What a call of `midi_make_message` leaves behind: the returned status and
the contents of the two output locations (`none` for a `NULL` pointer). -/
structure MakeResult where
  retval : Int
  msg : Option Buf
  msg_size : Option Nat
deriving DecidableEq, Repr

/-- The message a call produced: the bytes of the output buffer that lie
within the length written to `msg_size` (`none` if either output location is
`NULL`). -/
def MakeResult.message (r : MakeResult) : Option (List Nat) :=
  match r.msg, r.msg_size with
  | some buf, some n => some (buf.message n)
  | _, _ => none

/-- Number of bytes a parameter contributes: 1 if present, 0 if `NULL`. -/
def present (param : Option Nat) : Nat :=
  match param with
  | some _ => 1
  | none => 0

/-- Embedding of `midi_make_message`.  The arguments `msg` and `msg_size`
carry what the output locations hold before the call. -/
def midi_make_message (command channel : Nat) (param1 param2 : Option Nat)
    (msg : Option Buf) (msg_size : Option Nat) : MakeResult :=
  match msg with
  | none => ⟨-1, msg, msg_size⟩
  | some buf =>
    match msg_size with
    | none => ⟨-1, msg, msg_size⟩
    | some _ =>
      if channel > 0xF then
        ⟨-1, msg, msg_size⟩
      else if validate_command command ≠ 0 then
        ⟨-1, msg, msg_size⟩
      else
        let bytes_count : Nat := 1
        -- first command + channel byte
        let first_byte : Nat := (command + channel) % 256
        let buf : Buf := ⟨first_byte, buf.b1, buf.b2⟩
        -- param 1 byte: memcpy(msg + 1, param1, 1); bytes_count++
        let buf : Buf :=
          match param1 with
          | some p1 => ⟨buf.b0, p1, buf.b2⟩
          | none => buf
        let bytes_count : Nat :=
          match param1 with
          | some _ => (bytes_count + 1) % 256
          | none => bytes_count
        -- param 2 byte: memcpy(msg + 2, param2, 1); bytes_count++
        let buf : Buf :=
          match param2 with
          | some p2 => ⟨buf.b0, buf.b1, p2⟩
          | none => buf
        let bytes_count : Nat :=
          match param2 with
          | some _ => (bytes_count + 1) % 256
          | none => bytes_count
        ⟨0, some buf, some bytes_count⟩

/-- Embedding of `midi_make_message_note_off`; `&key` and `&velocity` are
never `NULL`. -/
def midi_make_message_note_off (channel key velocity : Nat)
    (msg : Option Buf) (msg_size : Option Nat) : MakeResult :=
  midi_make_message MIDI_CMD_NOTE_OFF channel (some key) (some velocity)
    msg msg_size

/-- Embedding of `midi_make_message_note_on`. -/
def midi_make_message_note_on (channel key velocity : Nat)
    (msg : Option Buf) (msg_size : Option Nat) : MakeResult :=
  midi_make_message MIDI_CMD_NOTE_ON channel (some key) (some velocity)
    msg msg_size

/-- Embedding of `midi_make_message_aftertouch`. -/
def midi_make_message_aftertouch (channel key touch : Nat)
    (msg : Option Buf) (msg_size : Option Nat) : MakeResult :=
  midi_make_message MIDI_CMD_AFTERTOUCH channel (some key) (some touch)
    msg msg_size

/-- Embedding of `midi_make_message_control_change`. -/
def midi_make_message_control_change (channel controller value : Nat)
    (msg : Option Buf) (msg_size : Option Nat) : MakeResult :=
  midi_make_message MIDI_CMD_CONTROL_CHANGE channel (some controller)
    (some value) msg msg_size

/-- Embedding of `midi_make_message_program_change`; the second parameter
is `NULL`. -/
def midi_make_message_program_change (channel program_number : Nat)
    (msg : Option Buf) (msg_size : Option Nat) : MakeResult :=
  midi_make_message MIDI_CMD_PROGRAM_CHANGE channel (some program_number)
    none msg msg_size

/-- Embedding of `midi_make_message_pitch_bend`. -/
def midi_make_message_pitch_bend (channel lsb msb : Nat)
    (msg : Option Buf) (msg_size : Option Nat) : MakeResult :=
  midi_make_message MIDI_CMD_PITCH_BEND channel (some lsb) (some msb)
    msg msg_size

/-- Embedding of `midi_init`: the returned status and the contents of
`*midi` after the call (`none` when `midi` is `NULL`). -/
def midi_init {σ : Type} (midi : Option (Midi.midi σ))
    (serial_write : Option (Transport σ)) : Int × Option (Midi.midi σ) :=
  match midi with
  | none => (-1, midi)
  | some _ =>
    match serial_write with
    | none => (-1, midi)
    | some f => (0, some ⟨some f⟩)

/-- Embedding of `midi_send_message`: the returned status and the world
after the call.  The transport is applied at most once, to the buffer `msg`
points to and to `msg_size`; its `uint8_t` result is compared, as an `int`,
with `(int)msg_size`. -/
def midi_send_message {σ : Type} (midi : Option (Midi.midi σ))
    (msg : Option Buf) (msg_size : Nat) (w : σ) : Int × σ :=
  match midi with
  | none => (-1, w)
  | some m =>
    match msg with
    | none => (-1, w)
    | some buf =>
      if msg_size = 0 then
        (-1, w)
      else if msg_size > 3 then
        (-1, w)
      else
        match m.serial_write with
        | none => (-1, w)
        | some serial_write =>
          let r := serial_write buf msg_size w
          let ret : Int := (r.1 : Int)
          if ret ≠ (msg_size : Int) then (-1, r.2) else (0, r.2)

/-- Embedding of `midi_send`.  The locals `msg[3]` and `msg_size` are not
initialised by the source; `msg0` and `msg_size0` are the values they happen
to hold on entry. -/
def midi_send {σ : Type} (midi : Option (Midi.midi σ))
    (command channel : Nat) (param1 param2 : Option Nat)
    (msg0 : Buf) (msg_size0 : Nat) (w : σ) : Int × σ :=
  match midi with
  | none => (-1, w)
  | some _ =>
    let made := midi_make_message command channel param1 param2
      (some msg0) (some msg_size0)
    -- contents of the two locals after the call
    let msg : Buf := made.msg.getD msg0
    let msg_size : Nat := made.msg_size.getD msg_size0
    if made.retval ≠ 0 then
      (-1, w)
    else
      let sent := midi_send_message midi (some msg) msg_size w
      if sent.1 ≠ 0 then (-1, sent.2) else (0, sent.2)

/-- Embedding of `midi_send_note_off`. -/
def midi_send_note_off {σ : Type} (midi : Option (Midi.midi σ))
    (channel key velocity : Nat) (msg0 : Buf) (msg_size0 : Nat) (w : σ) :
    Int × σ :=
  midi_send midi MIDI_CMD_NOTE_OFF channel (some key) (some velocity)
    msg0 msg_size0 w

/-- Embedding of `midi_send_note_on`. -/
def midi_send_note_on {σ : Type} (midi : Option (Midi.midi σ))
    (channel key velocity : Nat) (msg0 : Buf) (msg_size0 : Nat) (w : σ) :
    Int × σ :=
  midi_send midi MIDI_CMD_NOTE_ON channel (some key) (some velocity)
    msg0 msg_size0 w

/-- Embedding of `midi_send_aftertouch`. -/
def midi_send_aftertouch {σ : Type} (midi : Option (Midi.midi σ))
    (channel key touch : Nat) (msg0 : Buf) (msg_size0 : Nat) (w : σ) :
    Int × σ :=
  midi_send midi MIDI_CMD_AFTERTOUCH channel (some key) (some touch)
    msg0 msg_size0 w

/-- Embedding of `midi_send_control_change`. -/
def midi_send_control_change {σ : Type} (midi : Option (Midi.midi σ))
    (channel controller value : Nat) (msg0 : Buf) (msg_size0 : Nat) (w : σ) :
    Int × σ :=
  midi_send midi MIDI_CMD_CONTROL_CHANGE channel (some controller)
    (some value) msg0 msg_size0 w

/-- Embedding of `midi_send_program_change`. -/
def midi_send_program_change {σ : Type} (midi : Option (Midi.midi σ))
    (channel program_number : Nat) (msg0 : Buf) (msg_size0 : Nat) (w : σ) :
    Int × σ :=
  midi_send midi MIDI_CMD_PROGRAM_CHANGE channel (some program_number) none
    msg0 msg_size0 w

/-- Embedding of `midi_send_pitch_bend`. -/
def midi_send_pitch_bend {σ : Type} (midi : Option (Midi.midi σ))
    (channel lsb msb : Nat) (msg0 : Buf) (msg_size0 : Nat) (w : σ) :
    Int × σ :=
  midi_send midi MIDI_CMD_PITCH_BEND channel (some lsb) (some msb)
    msg0 msg_size0 w

/-! ## Test transports

World: the list of calls `(bytes handed over, count)` received so far, most
recent last. -/

/-- A transport that records each call and reports `reported` bytes
written. -/
def recording (reported : Nat) : Transport (List (List Nat × Nat)) :=
  fun buf n log => (reported, log ++ [(buf.toList, n)])

/-- A transport that records each call and reports the full count. -/
def faithful : Transport (List (List Nat × Nat)) :=
  fun buf n log => (n, log ++ [(buf.toList, n)])

/-! ## Send facade as the specification describes it -/

/-- The send operation in the words of section 4.4 of the specification:
build the message, then dispatch it; fail if building fails, otherwise
return what the dispatcher returns for the built bytes and length.  The
arguments `msg0` and `msg_size0` are the previous contents of the locations
the builder writes to. -/
def send_spec {σ : Type} (midi : Option (Midi.midi σ))
    (command channel : Nat) (param1 param2 : Option Nat)
    (msg0 : Buf) (msg_size0 : Nat) (w : σ) : Int × σ :=
  let built := midi_make_message command channel param1 param2
    (some msg0) (some msg_size0)
  match decide (built.retval = 0), built.msg, built.msg_size with
  | true, some bytes, some length => midi_send_message midi (some bytes) length w
  | _, _, _ => (-1, w)

/-! ## Session as a state machine

The only assignment through a `struct midi *` in the source is
`midi->serial_write = serial_write` in `midi_init`; the send operations read
the session and the build operations do not receive it. -/

/-- A session together with the world its transport acts on. -/
structure Config (σ : Type) where
  session : Midi.midi σ
  world : σ

/-- The public operations of `midi.h`, with their arguments (for the send
operations including the entry contents of the locals of `midi_send`). -/
inductive Op (σ : Type) where
  | init (serial_write : Option (Transport σ))
  | send (command channel : Nat) (param1 param2 : Option Nat) (msg0 : Buf)
      (msg_size0 : Nat)
  | send_message (msg : Option Buf) (msg_size : Nat)
  | send_note_off (channel key velocity : Nat) (msg0 : Buf) (msg_size0 : Nat)
  | send_note_on (channel key velocity : Nat) (msg0 : Buf) (msg_size0 : Nat)
  | send_aftertouch (channel key touch : Nat) (msg0 : Buf) (msg_size0 : Nat)
  | send_control_change (channel controller value : Nat) (msg0 : Buf)
      (msg_size0 : Nat)
  | send_program_change (channel program_number : Nat) (msg0 : Buf)
      (msg_size0 : Nat)
  | send_pitch_bend (channel lsb msb : Nat) (msg0 : Buf) (msg_size0 : Nat)
  | make_message (command channel : Nat) (param1 param2 : Option Nat)
      (msg : Option Buf) (msg_size : Option Nat)
  | make_message_note_off (channel key velocity : Nat) (msg : Option Buf)
      (msg_size : Option Nat)
  | make_message_note_on (channel key velocity : Nat) (msg : Option Buf)
      (msg_size : Option Nat)
  | make_message_aftertouch (channel key touch : Nat) (msg : Option Buf)
      (msg_size : Option Nat)
  | make_message_control_change (channel controller value : Nat)
      (msg : Option Buf) (msg_size : Option Nat)
  | make_message_program_change (channel program_number : Nat)
      (msg : Option Buf) (msg_size : Option Nat)
  | make_message_pitch_bend (channel lsb msb : Nat) (msg : Option Buf)
      (msg_size : Option Nat)

/-- One operation applied to a session: `midi_init` stores what the
embedding of `midi_init` leaves in `*midi`; a send operation leaves the
session and moves the world to what the embedded function returns; a build
operation touches neither. -/
def step {σ : Type} (c : Config σ) (op : Op σ) : Config σ :=
  match op with
  | .init serial_write =>
    ⟨((midi_init (some c.session) serial_write).2).getD c.session, c.world⟩
  | .send command channel param1 param2 msg0 msg_size0 =>
    ⟨c.session, (midi_send (some c.session) command channel param1 param2
      msg0 msg_size0 c.world).2⟩
  | .send_message msg msg_size =>
    ⟨c.session, (midi_send_message (some c.session) msg msg_size c.world).2⟩
  | .send_note_off channel key velocity msg0 msg_size0 =>
    ⟨c.session, (midi_send_note_off (some c.session) channel key velocity
      msg0 msg_size0 c.world).2⟩
  | .send_note_on channel key velocity msg0 msg_size0 =>
    ⟨c.session, (midi_send_note_on (some c.session) channel key velocity
      msg0 msg_size0 c.world).2⟩
  | .send_aftertouch channel key touch msg0 msg_size0 =>
    ⟨c.session, (midi_send_aftertouch (some c.session) channel key touch
      msg0 msg_size0 c.world).2⟩
  | .send_control_change channel controller value msg0 msg_size0 =>
    ⟨c.session, (midi_send_control_change (some c.session) channel controller
      value msg0 msg_size0 c.world).2⟩
  | .send_program_change channel program_number msg0 msg_size0 =>
    ⟨c.session, (midi_send_program_change (some c.session) channel
      program_number msg0 msg_size0 c.world).2⟩
  | .send_pitch_bend channel lsb msb msg0 msg_size0 =>
    ⟨c.session, (midi_send_pitch_bend (some c.session) channel lsb msb
      msg0 msg_size0 c.world).2⟩
  | .make_message _ _ _ _ _ _ => c
  | .make_message_note_off _ _ _ _ _ => c
  | .make_message_note_on _ _ _ _ _ => c
  | .make_message_aftertouch _ _ _ _ _ => c
  | .make_message_control_change _ _ _ _ _ => c
  | .make_message_program_change _ _ _ _ => c
  | .make_message_pitch_bend _ _ _ _ _ => c

/-- A sequence of operations applied in order. -/
def run {σ : Type} (c : Config σ) (ops : List (Op σ)) : Config σ :=
  ops.foldl step c

/-! ## Properties -/

/-- `validate_command` accepts exactly the enumerators of
`enum midi_commands`. -/
theorem validate_command_eq_zero_iff (command : Nat) :
    validate_command command = 0 ↔ command ∈ midi_commands := by
  unfold validate_command
  split
  · rename_i h
    simp [midi_commands, h]
  · rename_i h
    simp [midi_commands, h]

/-- On the failure branch `validate_command` returns -1. -/
theorem validate_command_of_not_mem (command : Nat)
    (h : command ∉ midi_commands) : validate_command command = -1 := by
  unfold validate_command
  split
  · rename_i h1
    exact absurd (by simpa [midi_commands] using h1) h
  · rfl

/-- For a recognised command and a channel of at most 15 the 8-bit sum
is the bitwise OR. -/
theorem first_byte_eq_lor (command channel : Nat)
    (hcmd : command ∈ midi_commands) (hch : channel ≤ 15) :
    (command + channel) % 256 = command ||| channel := by
  simp only [midi_commands, MIDI_CMD_NOTE_OFF, MIDI_CMD_NOTE_ON,
    MIDI_CMD_AFTERTOUCH, MIDI_CMD_CONTROL_CHANGE, MIDI_CMD_PROGRAM_CHANGE,
    MIDI_CMD_CHANNEL_PRESSUER, MIDI_CMD_PITCH_BEND, MIDI_CMD_NON_MUSICAL,
    List.mem_cons, List.mem_singleton, List.not_mem_nil, or_false] at hcmd
  rcases hcmd with h | h | h | h | h | h | h | h <;> subst h <;>
    interval_cases channel <;> rfl

/-- A call with valid outputs, a channel of at most 15 and a recognised
command succeeds; the buffer and the length it leaves behind are given in
closed form. -/
theorem midi_make_message_ok (command channel : Nat)
    (param1 param2 : Option Nat) (buf : Buf) (sz : Nat)
    (hcmd : command ∈ midi_commands) (hch : channel ≤ 15) :
    midi_make_message command channel param1 param2 (some buf) (some sz)
      = ⟨0, some ⟨(command + channel) % 256, param1.getD buf.b1,
                  param2.getD buf.b2⟩,
         some (1 + present param1 + present param2)⟩ := by
  have hv : validate_command command = 0 :=
    (validate_command_eq_zero_iff command).2 hcmd
  have hc : ¬ channel > 0xF := by omega
  cases param1 <;> cases param2 <;>
    simp [midi_make_message, hv, hc, present]

/-- A call with a channel above 15 or an unrecognised command returns -1
and leaves both output locations as they were. -/
theorem midi_make_message_fail (command channel : Nat)
    (param1 param2 : Option Nat) (msg : Option Buf) (msg_size : Option Nat)
    (h : 15 < channel ∨ command ∉ midi_commands) :
    midi_make_message command channel param1 param2 msg msg_size
      = ⟨-1, msg, msg_size⟩ := by
  cases msg with
  | none => rfl
  | some buf =>
    cases msg_size with
    | none => rfl
    | some sz =>
      unfold midi_make_message
      by_cases hc : channel > 0xF
      · simp [hc]
      · have hcmd : command ∉ midi_commands := by
          rcases h with h | h
          · omega
          · exact h
        have hv : validate_command command ≠ 0 := by
          rw [validate_command_of_not_mem command hcmd]; decide
        simp [hc, hv]

/-- A successful call had valid outputs, a channel of at most 15 and a
recognised command. -/
theorem midi_make_message_success_inv (command channel : Nat)
    (param1 param2 : Option Nat) (msg : Option Buf) (msg_size : Option Nat)
    (h : (midi_make_message command channel param1 param2 msg msg_size).retval
      = 0) :
    (∃ buf sz, msg = some buf ∧ msg_size = some sz)
      ∧ channel ≤ 15 ∧ command ∈ midi_commands := by
  by_cases hbad : 15 < channel ∨ command ∉ midi_commands
  · rw [midi_make_message_fail _ _ _ _ _ _ hbad] at h
    simp at h
  · have hch : channel ≤ 15 := by
      by_contra hc
      exact hbad (Or.inl (by omega))
    have hcmd : command ∈ midi_commands := by
      by_contra hc
      exact hbad (Or.inr hc)
    refine ⟨?_, hch, hcmd⟩
    cases msg with
    | none => exact absurd h (by simp [midi_make_message])
    | some buf =>
      cases msg_size with
      | none => exact absurd h (by simp [midi_make_message])
      | some sz => exact ⟨buf, sz, rfl, rfl⟩

/-- For a recognised command and a channel of at most 15 the sum needs no
truncation and its high nibble is the command. -/
theorem first_byte_no_wrap (command channel : Nat)
    (hcmd : command ∈ midi_commands) (hch : channel ≤ 15) :
    command + channel < 256 ∧ (command ||| channel) &&& 0xF0 = command := by
  simp only [midi_commands, MIDI_CMD_NOTE_OFF, MIDI_CMD_NOTE_ON,
    MIDI_CMD_AFTERTOUCH, MIDI_CMD_CONTROL_CHANGE, MIDI_CMD_PROGRAM_CHANGE,
    MIDI_CMD_CHANNEL_PRESSUER, MIDI_CMD_PITCH_BEND, MIDI_CMD_NON_MUSICAL,
    List.mem_cons, List.mem_singleton, List.not_mem_nil, or_false] at hcmd
  rcases hcmd with h | h | h | h | h | h | h | h <;> subst h <;>
    interval_cases channel <;> decide

/-! ## Message builder -/

/-- C1: for every channel in [0,15], every one of the eight recognised
commands and every choice of present or absent parameters,
`midi_make_message` with non-null `msg` and `msg_size` returns 0 and writes
as first byte `command | channel`; the 8-bit sum `command + channel` does not
wrap, equals the bitwise OR, and leaves the command nibble intact. -/
theorem C1_status_byte_is_command_or_channel (command channel : Nat)
    (param1 param2 : Option Nat) (buf : Buf) (sz : Nat)
    (hcmd : command ∈ midi_commands) (hch : channel ≤ 15) :
    (midi_make_message command channel param1 param2 (some buf)
        (some sz)).retval = 0
      ∧ (midi_make_message command channel param1 param2 (some buf)
          (some sz)).msg.map Buf.b0 = some (command ||| channel)
      ∧ command + channel < 256
      ∧ (command + channel) % 256 = command ||| channel
      ∧ (command ||| channel) &&& 0xF0 = command := by
  rw [midi_make_message_ok command channel param1 param2 buf sz hcmd hch]
  have hor := first_byte_eq_lor command channel hcmd hch
  have hnw := first_byte_no_wrap command channel hcmd hch
  exact ⟨rfl, by simp [hor], hnw.1, hor, hnw.2⟩

/-- C1 at Control Change (0xB0) on channel 8 with one parameter: status
byte 0xB8. -/
theorem C1_status_byte_is_command_or_channel_witness :
    (midi_make_message 0xB0 8 (some 7) none (some ⟨0, 0, 0⟩)
        (some 0)).retval = 0
      ∧ (midi_make_message 0xB0 8 (some 7) none (some ⟨0, 0, 0⟩)
          (some 0)).msg.map Buf.b0 = some (0xB0 ||| 8)
      ∧ 0xB0 + 8 < 256
      ∧ (0xB0 + 8) % 256 = 0xB0 ||| 8
      ∧ (0xB0 ||| 8) &&& 0xF0 = 0xB0 :=
  C1_status_byte_is_command_or_channel 0xB0 8 (some 7) none ⟨0, 0, 0⟩ 0
    (by decide) (by decide)

/-- C2: for every channel above 15, `midi_make_message` returns -1 for
every command and every combination of parameters (and of output
locations); nothing is written, so the channel is rejected and not masked to
its low four bits. -/
theorem C2_channel_above_15_rejected (command channel : Nat)
    (param1 param2 : Option Nat) (msg : Option Buf) (msg_size : Option Nat)
    (hch : 15 < channel) :
    (midi_make_message command channel param1 param2 msg msg_size).retval
        = -1
      ∧ (midi_make_message command channel param1 param2 msg msg_size).msg
        = msg
      ∧ (midi_make_message command channel param1 param2 msg
          msg_size).msg_size = msg_size := by
  rw [midi_make_message_fail command channel param1 param2 msg msg_size
    (Or.inl hch)]
  exact ⟨rfl, rfl, rfl⟩

/-- C2 at channel 16 with Note On: rejected, although 16 masked to four
bits would be the valid channel 0. -/
theorem C2_channel_above_15_rejected_witness :
    15 < 16
      ∧ (midi_make_message 0x90 16 (some 60) (some 100) (some ⟨1, 2, 3⟩)
          (some 9)).retval = -1
      ∧ (midi_make_message 0x90 16 (some 60) (some 100) (some ⟨1, 2, 3⟩)
          (some 9)).msg = some ⟨1, 2, 3⟩
      ∧ (midi_make_message 0x90 16 (some 60) (some 100) (some ⟨1, 2, 3⟩)
          (some 9)).msg_size = some 9 :=
  ⟨by decide,
   C2_channel_above_15_rejected 0x90 16 (some 60) (some 100)
     (some ⟨1, 2, 3⟩) (some 9) (by decide)⟩

/-- C3: `validate_command` returns 0 exactly on the eight constants 0x80,
0x90, 0xA0, 0xB0, 0xC0, 0xD0, 0xE0, 0xF0 and -1 on every other value; every
value below 0x80 and every value with a non-zero low nibble is such a value;
and for every value that is not one of the eight, `midi_make_message`
returns -1 for every channel and every combination of parameters. -/
theorem C3_unrecognised_command_rejected (command : Nat) :
    midi_commands = [0x80, 0x90, 0xA0, 0xB0, 0xC0, 0xD0, 0xE0, 0xF0]
      ∧ (validate_command command = 0 ↔ command ∈ midi_commands)
      ∧ (command ∉ midi_commands → validate_command command = -1)
      ∧ (command < 0x80 ∨ command % 16 ≠ 0 → command ∉ midi_commands)
      ∧ (command ∉ midi_commands →
          ∀ (channel : Nat) (param1 param2 : Option Nat) (msg : Option Buf)
            (msg_size : Option Nat),
            (midi_make_message command channel param1 param2 msg
              msg_size).retval = -1) := by
  refine ⟨rfl, validate_command_eq_zero_iff command,
    validate_command_of_not_mem command, ?_, ?_⟩
  · intro h hmem
    simp only [midi_commands, MIDI_CMD_NOTE_OFF, MIDI_CMD_NOTE_ON,
      MIDI_CMD_AFTERTOUCH, MIDI_CMD_CONTROL_CHANGE, MIDI_CMD_PROGRAM_CHANGE,
      MIDI_CMD_CHANNEL_PRESSUER, MIDI_CMD_PITCH_BEND, MIDI_CMD_NON_MUSICAL,
      List.mem_cons, List.mem_singleton, List.not_mem_nil, or_false] at hmem
    omega
  · intro h channel param1 param2 msg msg_size
    rw [midi_make_message_fail command channel param1 param2 msg msg_size
      (Or.inr h)]

/-- C3 at the values 0x95 (non-zero low nibble) and 0x7F (below 0x80). -/
theorem C3_unrecognised_command_rejected_witness :
    validate_command 0x95 = -1
      ∧ (midi_make_message 0x95 0 (some 60) (some 100) (some ⟨0, 0, 0⟩)
          (some 0)).retval = -1
      ∧ (midi_make_message 0x7F 0 none none (some ⟨0, 0, 0⟩)
          (some 0)).retval = -1 :=
  ⟨(C3_unrecognised_command_rejected 0x95).2.2.1 (by decide),
   (C3_unrecognised_command_rejected 0x95).2.2.2.2 (by decide) 0 (some 60)
     (some 100) (some ⟨0, 0, 0⟩) (some 0),
   (C3_unrecognised_command_rejected 0x7F).2.2.2.2
     ((C3_unrecognised_command_rejected 0x7F).2.2.2.1 (Or.inl (by decide)))
     0 none none (some ⟨0, 0, 0⟩) (some 0)⟩

/-- C4: for every successful call of `midi_make_message`, the length
written to `msg_size` is 1 plus the number of parameters that are present
(1 for none, 2 for exactly one of them, 3 for both), hence within [1,3]. -/
theorem C4_length_counts_present_parameters (command channel : Nat)
    (param1 param2 : Option Nat) (msg : Option Buf) (msg_size : Option Nat)
    (hok : (midi_make_message command channel param1 param2 msg
      msg_size).retval = 0) :
    (midi_make_message command channel param1 param2 msg msg_size).msg_size
        = some (1 + present param1 + present param2)
      ∧ 1 ≤ 1 + present param1 + present param2
      ∧ 1 + present param1 + present param2 ≤ 3 := by
  obtain ⟨⟨buf, sz, hmsg, hsz⟩, hch, hcmd⟩ :=
    midi_make_message_success_inv command channel param1 param2 msg msg_size
      hok
  subst hmsg hsz
  rw [midi_make_message_ok command channel param1 param2 buf sz hcmd hch]
  refine ⟨rfl, by omega, ?_⟩
  cases param1 <;> cases param2 <;> simp [present]

/-- C4 at a Channel Pressure message with only parameter1: length 2. -/
theorem C4_length_counts_present_parameters_witness :
    (midi_make_message 0xD0 5 (some 64) none (some ⟨0, 0, 0⟩) (some 0)).msg_size
        = some (1 + present (some 64) + present none)
      ∧ 1 ≤ 1 + present (some 64) + present none
      ∧ 1 + present (some 64) + present none ≤ 3 :=
  C4_length_counts_present_parameters 0xD0 5 (some 64) none (some ⟨0, 0, 0⟩)
    (some 0) (by decide)

/-- C5: for every valid command, every channel in [0,15] and every values
p1, p2 (no bound is needed, so in particular every byte 0..255),
`midi_make_message` yields the 1-byte message `[command|channel]` with no
parameter, the 2-byte message `[command|channel, p1]` with only parameter1,
and the 3-byte message `[command|channel, p1, p2]` with both; the parameter
bytes are copied verbatim. -/
theorem C5_message_layout (command channel p1 p2 : Nat) (buf : Buf)
    (sz : Nat) (hcmd : command ∈ midi_commands) (hch : channel ≤ 15) :
    ((midi_make_message command channel none none (some buf)
          (some sz)).retval = 0
        ∧ (midi_make_message command channel none none (some buf)
            (some sz)).message = some [command ||| channel])
      ∧ ((midi_make_message command channel (some p1) none (some buf)
            (some sz)).retval = 0
        ∧ (midi_make_message command channel (some p1) none (some buf)
            (some sz)).message = some [command ||| channel, p1])
      ∧ ((midi_make_message command channel (some p1) (some p2) (some buf)
            (some sz)).retval = 0
        ∧ (midi_make_message command channel (some p1) (some p2) (some buf)
            (some sz)).message = some [command ||| channel, p1, p2]) := by
  have hor := first_byte_eq_lor command channel hcmd hch
  simp only [midi_make_message_ok command channel _ _ buf sz hcmd hch, hor]
  simp [MakeResult.message, Buf.message, Buf.toList, present]

/-- C5 at Pitch Bend on channel 15 with the parameter bytes 0xFF and 0x80,
both above the 7-bit range. -/
theorem C5_message_layout_witness :
    ((midi_make_message 0xE0 15 none none (some ⟨0, 0, 0⟩)
          (some 0)).retval = 0
        ∧ (midi_make_message 0xE0 15 none none (some ⟨0, 0, 0⟩)
            (some 0)).message = some [0xE0 ||| 15])
      ∧ ((midi_make_message 0xE0 15 (some 0xFF) none (some ⟨0, 0, 0⟩)
            (some 0)).retval = 0
        ∧ (midi_make_message 0xE0 15 (some 0xFF) none (some ⟨0, 0, 0⟩)
            (some 0)).message = some [0xE0 ||| 15, 0xFF])
      ∧ ((midi_make_message 0xE0 15 (some 0xFF) (some 0x80) (some ⟨0, 0, 0⟩)
            (some 0)).retval = 0
        ∧ (midi_make_message 0xE0 15 (some 0xFF) (some 0x80) (some ⟨0, 0, 0⟩)
            (some 0)).message = some [0xE0 ||| 15, 0xFF, 0x80]) :=
  C5_message_layout 0xE0 15 0xFF 0x80 ⟨0, 0, 0⟩ 0 (by decide) (by decide)

/-- C6 (the code departs from the claim): with parameter1 absent and
parameter2 present the call succeeds and reports length 2, but parameter2 is
stored at index 2, beyond the reported length, and index 1 keeps whatever
the buffer held before.  Note On, channel 0, parameter2 = 0x40 into a buffer
holding 0x11 0x22 0x33 gives the message `[0x90, 0x22]`, whose second byte
is not 0x40. -/
theorem C6_param2_only_lands_outside_length :
    midi_make_message 0x90 0 none (some 0x40) (some ⟨0x11, 0x22, 0x33⟩)
        (some 0)
        = ⟨0, some ⟨0x90, 0x22, 0x40⟩, some 2⟩
      ∧ (midi_make_message 0x90 0 none (some 0x40) (some ⟨0x11, 0x22, 0x33⟩)
          (some 0)).message = some [0x90, 0x22]
      ∧ (midi_make_message 0x90 0 none (some 0x40) (some ⟨0x11, 0x22, 0x33⟩)
          (some 0)).message ≠ some [0x90, 0x40] := by
  decide

/-- C7: for every channel in [0,15] and every key, velocity and program
(in particular every byte), `midi_make_message_note_on` returns 0 with
length 3 and bytes `[0x90|channel, key, velocity]`, and
`midi_make_message_program_change` returns 0 with length 2 and bytes
`[0xC0|channel, program]`. -/
theorem C7_note_on_and_program_change (channel key velocity program : Nat)
    (buf : Buf) (sz : Nat) (hch : channel ≤ 15) :
    ((midi_make_message_note_on channel key velocity (some buf)
          (some sz)).retval = 0
        ∧ (midi_make_message_note_on channel key velocity (some buf)
            (some sz)).msg_size = some 3
        ∧ (midi_make_message_note_on channel key velocity (some buf)
            (some sz)).message = some [0x90 ||| channel, key, velocity])
      ∧ ((midi_make_message_program_change channel program (some buf)
            (some sz)).retval = 0
        ∧ (midi_make_message_program_change channel program (some buf)
            (some sz)).msg_size = some 2
        ∧ (midi_make_message_program_change channel program (some buf)
            (some sz)).message = some [0xC0 ||| channel, program]) := by
  have h9 : MIDI_CMD_NOTE_ON ∈ midi_commands := by decide
  have hC : MIDI_CMD_PROGRAM_CHANGE ∈ midi_commands := by decide
  have hor9 := first_byte_eq_lor MIDI_CMD_NOTE_ON channel h9 hch
  have horC := first_byte_eq_lor MIDI_CMD_PROGRAM_CHANGE channel hC hch
  simp only [midi_make_message_note_on, midi_make_message_program_change,
    midi_make_message_ok _ channel _ _ buf sz h9 hch,
    midi_make_message_ok _ channel _ _ buf sz hC hch, hor9, horC]
  simp [MakeResult.message, Buf.message, Buf.toList, present,
    MIDI_CMD_NOTE_ON, MIDI_CMD_PROGRAM_CHANGE]

/-- C7 at channel 3: Note On key 60 velocity 100 and Program Change 5. -/
theorem C7_note_on_and_program_change_witness :
    ((midi_make_message_note_on 3 60 100 (some ⟨0, 0, 0⟩)
          (some 0)).retval = 0
        ∧ (midi_make_message_note_on 3 60 100 (some ⟨0, 0, 0⟩)
            (some 0)).msg_size = some 3
        ∧ (midi_make_message_note_on 3 60 100 (some ⟨0, 0, 0⟩)
            (some 0)).message = some [0x90 ||| 3, 60, 100])
      ∧ ((midi_make_message_program_change 3 5 (some ⟨0, 0, 0⟩)
            (some 0)).retval = 0
        ∧ (midi_make_message_program_change 3 5 (some ⟨0, 0, 0⟩)
            (some 0)).msg_size = some 2
        ∧ (midi_make_message_program_change 3 5 (some ⟨0, 0, 0⟩)
            (some 0)).message = some [0xC0 ||| 3, 5]) :=
  C7_note_on_and_program_change 3 60 100 5 ⟨0, 0, 0⟩ 0 (by decide)

/-! ## Transport dispatcher -/

/-- A call of `midi_send_message` whose length is 0 or above 3 returns -1
and leaves the world as it was. -/
theorem midi_send_message_bad_length {σ : Type} (midi : Option (Midi.midi σ))
    (msg : Option Buf) (msg_size : Nat) (w : σ)
    (hlen : msg_size = 0 ∨ 3 < msg_size) :
    midi_send_message midi msg msg_size w = (-1, w) := by
  cases midi with
  | none => rfl
  | some m =>
    cases msg with
    | none => rfl
    | some buf =>
      unfold midi_send_message
      rcases hlen with h | h
      · simp [h]
      · have h0 : msg_size ≠ 0 := by omega
        simp [h0, h]

/-- A call of `midi_send_message` on a session without a transport returns
-1 and leaves the world as it was. -/
theorem midi_send_message_no_transport {σ : Type} (msg : Option Buf)
    (msg_size : Nat) (w : σ) :
    midi_send_message (some (⟨none⟩ : Midi.midi σ)) msg msg_size w
      = (-1, w) := by
  cases msg with
  | none => rfl
  | some buf =>
    unfold midi_send_message
    by_cases h0 : msg_size = 0
    · simp [h0]
    · by_cases h3 : msg_size > 3
      · simp [h0, h3]
      · simp [h0, h3]

/-- With a length in [1,3] and a transport installed, `midi_send_message`
is one application of the transport followed by the comparison of the
reported count with the length. -/
theorem midi_send_message_dispatch {σ : Type} (t : Transport σ) (buf : Buf)
    (msg_size : Nat) (w : σ) (h1 : 1 ≤ msg_size) (h3 : msg_size ≤ 3) :
    midi_send_message (some ⟨some t⟩) (some buf) msg_size w
      = (if (t buf msg_size w).1 = msg_size then 0 else -1,
         (t buf msg_size w).2) := by
  have h0 : msg_size ≠ 0 := by omega
  have h3n : ¬ msg_size > 3 := by omega
  unfold midi_send_message
  by_cases hr : (t buf msg_size w).1 = msg_size
  · simp [h0, h3n, hr]
  · simp [h0, h3n, hr]

/-- A session without a transport makes `midi_send` return -1 with the
world as it was. -/
theorem midi_send_no_transport {σ : Type} (command channel : Nat)
    (param1 param2 : Option Nat) (msg0 : Buf) (msg_size0 : Nat) (w : σ) :
    midi_send (some (⟨none⟩ : Midi.midi σ)) command channel param1 param2
      msg0 msg_size0 w = (-1, w) := by
  unfold midi_send
  simp only [midi_send_message_no_transport]
  split <;> simp

/-- C8: given a present session and a present message buffer,
`midi_send_message` returns 0 if and only if the length is within [1,3], a
transport is installed in the session, and that transport, called with this
buffer and this length, reports a count equal to the length; in every other
case it returns -1. -/
theorem C8_send_message_succeeds_iff {σ : Type} (m : Midi.midi σ)
    (buf : Buf) (msg_size : Nat) (w : σ) :
    ((midi_send_message (some m) (some buf) msg_size w).1 = 0 ↔
        1 ≤ msg_size ∧ msg_size ≤ 3
          ∧ ∃ t, m.serial_write = some t ∧ (t buf msg_size w).1 = msg_size)
      ∧ ((midi_send_message (some m) (some buf) msg_size w).1 = 0
          ∨ (midi_send_message (some m) (some buf) msg_size w).1 = -1) := by
  obtain ⟨sw⟩ := m
  by_cases hlen : msg_size = 0 ∨ 3 < msg_size
  · rw [midi_send_message_bad_length _ _ _ _ hlen]
    refine ⟨⟨fun h => absurd h (by simp), ?_⟩, Or.inr rfl⟩
    rintro ⟨h1, h3, _⟩
    omega
  · have h1 : 1 ≤ msg_size := by omega
    have h3 : msg_size ≤ 3 := by omega
    cases sw with
    | none =>
      rw [midi_send_message_no_transport]
      refine ⟨⟨fun h => absurd h (by simp), ?_⟩, Or.inr rfl⟩
      rintro ⟨_, _, t, ht, _⟩
      exact Option.noConfusion ht
    | some t =>
      rw [midi_send_message_dispatch t buf msg_size w h1 h3]
      by_cases hr : (t buf msg_size w).1 = msg_size
      · rw [if_pos hr]
        exact ⟨⟨fun _ => ⟨h1, h3, t, rfl, hr⟩, fun _ => rfl⟩, Or.inl rfl⟩
      · rw [if_neg hr]
        refine ⟨⟨fun h => absurd h (by simp), ?_⟩, Or.inr rfl⟩
        rintro ⟨_, _, u, hu, hur⟩
        cases hu
        exact absurd hur hr

/-- C9: for every length that is 0 or at least 4, `midi_send_message`
returns -1 whatever the session holds (no transport, or any transport with
any behaviour), and the world is exactly as before the call: the transport
has not been invoked. -/
theorem C9_bad_length_fails_without_transport_call {σ : Type}
    (midi : Option (Midi.midi σ)) (msg : Option Buf) (msg_size : Nat) (w : σ)
    (hlen : msg_size = 0 ∨ 4 ≤ msg_size) :
    midi_send_message midi msg msg_size w = (-1, w) :=
  midi_send_message_bad_length midi msg msg_size w
    (hlen.imp id (fun h => h))

/-- C9 with a recording transport that would report success: at length 4
the call fails and the record of calls stays empty. -/
theorem C9_bad_length_fails_without_transport_call_witness :
    (4 = 0 ∨ 4 ≤ 4)
      ∧ midi_send_message (some ⟨some faithful⟩) (some ⟨0x90, 60, 100⟩) 4 []
        = (-1, []) :=
  ⟨by decide,
   C9_bad_length_fails_without_transport_call (some ⟨some faithful⟩)
     (some ⟨0x90, 60, 100⟩) 4 [] (by decide)⟩

/-- C10: on a session in which no transport is installed (`serial_write` is
`NULL`), `midi_send` returns -1 for every command, channel and parameter
combination, and so do `midi_send_message` and the six per-command send
operations; the world is left as it was. -/
theorem C10_send_without_transport_fails {σ : Type} (command channel : Nat)
    (param1 param2 : Option Nat) (msg : Option Buf) (msg_size a b : Nat)
    (msg0 : Buf) (msg_size0 : Nat) (w : σ) :
    midi_send (some (⟨none⟩ : Midi.midi σ)) command channel param1 param2
        msg0 msg_size0 w = (-1, w)
      ∧ midi_send_message (some (⟨none⟩ : Midi.midi σ)) msg msg_size w
        = (-1, w)
      ∧ midi_send_note_off (some (⟨none⟩ : Midi.midi σ)) channel a b
        msg0 msg_size0 w = (-1, w)
      ∧ midi_send_note_on (some (⟨none⟩ : Midi.midi σ)) channel a b
        msg0 msg_size0 w = (-1, w)
      ∧ midi_send_aftertouch (some (⟨none⟩ : Midi.midi σ)) channel a b
        msg0 msg_size0 w = (-1, w)
      ∧ midi_send_control_change (some (⟨none⟩ : Midi.midi σ)) channel a b
        msg0 msg_size0 w = (-1, w)
      ∧ midi_send_program_change (some (⟨none⟩ : Midi.midi σ)) channel a
        msg0 msg_size0 w = (-1, w)
      ∧ midi_send_pitch_bend (some (⟨none⟩ : Midi.midi σ)) channel a b
        msg0 msg_size0 w = (-1, w) :=
  ⟨midi_send_no_transport _ _ _ _ _ _ _,
   midi_send_message_no_transport _ _ _,
   midi_send_no_transport _ _ _ _ _ _ _,
   midi_send_no_transport _ _ _ _ _ _ _,
   midi_send_no_transport _ _ _ _ _ _ _,
   midi_send_no_transport _ _ _ _ _ _ _,
   midi_send_no_transport _ _ _ _ _ _ _,
   midi_send_no_transport _ _ _ _ _ _ _⟩

/-! ## Send facade -/

/-- The status `midi_send_message` returns is 0 or -1. -/
theorem midi_send_message_status {σ : Type} (midi : Option (Midi.midi σ))
    (msg : Option Buf) (msg_size : Nat) (w : σ) :
    (midi_send_message midi msg msg_size w).1 = 0
      ∨ (midi_send_message midi msg msg_size w).1 = -1 := by
  cases midi with
  | none => exact Or.inr rfl
  | some m =>
    cases msg with
    | none => exact Or.inr rfl
    | some buf =>
      by_cases hlen : msg_size = 0 ∨ 3 < msg_size
      · rw [midi_send_message_bad_length _ _ _ _ hlen]
        exact Or.inr rfl
      · obtain ⟨sw⟩ := m
        cases sw with
        | none =>
          rw [midi_send_message_no_transport]
          exact Or.inr rfl
        | some t =>
          rw [midi_send_message_dispatch t buf msg_size w (by omega)
            (by omega)]
          by_cases hr : (t buf msg_size w).1 = msg_size
          · rw [if_pos hr]; exact Or.inl rfl
          · rw [if_neg hr]; exact Or.inr rfl

/-- When building fails, `midi_send` returns -1 and the world is as it
was. -/
theorem midi_send_build_fails {σ : Type} (midi : Option (Midi.midi σ))
    (command channel : Nat) (param1 param2 : Option Nat) (msg0 : Buf)
    (msg_size0 : Nat) (w : σ)
    (h : 15 < channel ∨ command ∉ midi_commands) :
    midi_send midi command channel param1 param2 msg0 msg_size0 w
      = (-1, w) := by
  cases midi with
  | none => rfl
  | some m =>
    unfold midi_send
    simp [midi_make_message_fail command channel param1 param2 (some msg0)
      (some msg_size0) h]

/-- When building succeeds, `midi_send` on a present session is
`midi_send_message` applied to the built buffer and length. -/
theorem midi_send_build_ok {σ : Type} (m : Midi.midi σ)
    (command channel : Nat) (param1 param2 : Option Nat) (msg0 : Buf)
    (msg_size0 : Nat) (w : σ)
    (hcmd : command ∈ midi_commands) (hch : channel ≤ 15) :
    midi_send (some m) command channel param1 param2 msg0 msg_size0 w
      = midi_send_message (some m)
          (some ⟨(command + channel) % 256, param1.getD msg0.b1,
                 param2.getD msg0.b2⟩)
          (1 + present param1 + present param2) w := by
  unfold midi_send
  simp only [midi_make_message_ok command channel param1 param2 msg0
    msg_size0 hcmd hch, Option.getD_some]
  rcases midi_send_message_status (some m)
      (some ⟨(command + channel) % 256, param1.getD msg0.b1,
             param2.getD msg0.b2⟩)
      (1 + present param1 + present param2) w with h | h
  · simp [h, Prod.ext_iff]
  · simp [h, Prod.ext_iff]

/-- The built length is within [1,3]. -/
theorem built_length_bounds (param1 param2 : Option Nat) :
    1 ≤ 1 + present param1 + present param2
      ∧ 1 + present param1 + present param2 ≤ 3 := by
  cases param1 <;> cases param2 <;> simp [present]

/-- With a transport installed and a buildable message, `midi_send` is one
application of the transport to the built buffer and length, followed by
the comparison of the reported count with that length. -/
theorem midi_send_dispatch {σ : Type} (t : Transport σ)
    (command channel : Nat) (param1 param2 : Option Nat) (msg0 : Buf)
    (msg_size0 : Nat) (w : σ)
    (hcmd : command ∈ midi_commands) (hch : channel ≤ 15) :
    midi_send (some ⟨some t⟩) command channel param1 param2 msg0 msg_size0 w
      = (if (t ⟨(command + channel) % 256, param1.getD msg0.b1,
                param2.getD msg0.b2⟩
              (1 + present param1 + present param2) w).1
            = 1 + present param1 + present param2 then 0 else -1,
         (t ⟨(command + channel) % 256, param1.getD msg0.b1,
             param2.getD msg0.b2⟩
           (1 + present param1 + present param2) w).2) := by
  rw [midi_send_build_ok _ command channel param1 param2 msg0 msg_size0 w
    hcmd hch]
  exact midi_send_message_dispatch t _ _ w
    (built_length_bounds param1 param2).1 (built_length_bounds param1 param2).2

/-- A successful `midi_init` on a present session leaves exactly the
supplied transport installed. -/
theorem midi_init_ok {σ : Type} (m : Midi.midi σ) (t : Transport σ) :
    midi_init (some m) (some t) = (0, some ⟨some t⟩) := rfl

/-- C11: after `midi_init` with a transport `t`, for every channel in
[0,15] and every key and velocity, `midi_send_note_on` is exactly one
application of `t`, to the buffer `[0x90|channel, key, velocity]` with
count 3 (the world after the call is the world `t` returns for that single
call), and it returns 0 if and only if `t` reports 3, and -1 otherwise. -/
theorem C11_send_note_on_after_init {σ : Type} (m : Midi.midi σ)
    (t : Transport σ) (channel key velocity : Nat) (msg0 : Buf)
    (msg_size0 : Nat) (w : σ) (hch : channel ≤ 15) :
    (midi_init (some m) (some t)).1 = 0
      ∧ midi_send_note_on (midi_init (some m) (some t)).2 channel key
          velocity msg0 msg_size0 w
        = (if (t ⟨0x90 ||| channel, key, velocity⟩ 3 w).1 = 3 then 0 else -1,
           (t ⟨0x90 ||| channel, key, velocity⟩ 3 w).2)
      ∧ ((midi_send_note_on (midi_init (some m) (some t)).2 channel key
            velocity msg0 msg_size0 w).1 = 0
          ↔ (t ⟨0x90 ||| channel, key, velocity⟩ 3 w).1 = 3) := by
  have h9 : MIDI_CMD_NOTE_ON ∈ midi_commands := by decide
  have hor : (MIDI_CMD_NOTE_ON + channel) % 256 = 0x90 ||| channel :=
    first_byte_eq_lor MIDI_CMD_NOTE_ON channel h9 hch
  have hsend : midi_send_note_on (midi_init (some m) (some t)).2 channel key
      velocity msg0 msg_size0 w
      = (if (t ⟨0x90 ||| channel, key, velocity⟩ 3 w).1 = 3 then 0 else -1,
         (t ⟨0x90 ||| channel, key, velocity⟩ 3 w).2) := by
    rw [midi_init_ok, midi_send_note_on,
      midi_send_dispatch t MIDI_CMD_NOTE_ON channel (some key) (some velocity)
        msg0 msg_size0 w h9 hch, hor]
    rfl
  refine ⟨rfl, hsend, ?_⟩
  rw [hsend]
  by_cases hr : (t ⟨0x90 ||| channel, key, velocity⟩ 3 w).1 = 3
  · simp [hr]
  · simp [hr]

/-- C11 at channel 0, key 60, velocity 100 on a fresh session whose local
buffer holds arbitrary bytes: a recording transport that reports 3 receives
the single call `([0x90, 60, 100], 3)` and the send succeeds; one that
reports 2 receives the same single call and the send returns -1. -/
theorem C11_send_note_on_after_init_witness :
    midi_send_note_on (midi_init (some ⟨none⟩) (some (recording 3))).2 0 60
        100 ⟨0xAA, 0xBB, 0xCC⟩ 0 []
        = (0, [([0x90, 60, 100], 3)])
      ∧ midi_send_note_on (midi_init (some ⟨none⟩) (some (recording 2))).2 0
          60 100 ⟨0xAA, 0xBB, 0xCC⟩ 0 []
        = (-1, [([0x90, 60, 100], 3)]) :=
  ⟨(C11_send_note_on_after_init ⟨none⟩ (recording 3) 0 60 100
      ⟨0xAA, 0xBB, 0xCC⟩ 0 [] (by decide)).2.1.trans (by decide),
   (C11_send_note_on_after_init ⟨none⟩ (recording 2) 0 60 100
      ⟨0xAA, 0xBB, 0xCC⟩ 0 [] (by decide)).2.1.trans (by decide)⟩

/-- C12: with a transport `t` installed, for every channel in [0,15] and
every lsb and msb, `midi_send_pitch_bend` is one application of `t` to the
buffer `[0xE0|channel, lsb, msb]` (lsb before msb) with count 3; a
recording transport therefore gains exactly the entry
`([0xE0|channel, lsb, msb], 3)`. -/
theorem C12_send_pitch_bend_bytes {σ : Type} (t : Transport σ)
    (channel lsb msb : Nat) (msg0 : Buf) (msg_size0 : Nat) (w : σ)
    (reported : Nat) (log : List (List Nat × Nat)) (hch : channel ≤ 15) :
    midi_send_pitch_bend (some ⟨some t⟩) channel lsb msb msg0 msg_size0 w
        = (if (t ⟨0xE0 ||| channel, lsb, msb⟩ 3 w).1 = 3 then 0 else -1,
           (t ⟨0xE0 ||| channel, lsb, msb⟩ 3 w).2)
      ∧ (midi_send_pitch_bend (some ⟨some (recording reported)⟩) channel lsb
          msb msg0 msg_size0 log).2
        = log ++ [([0xE0 ||| channel, lsb, msb], 3)] := by
  have hE : MIDI_CMD_PITCH_BEND ∈ midi_commands := by decide
  have hor : (MIDI_CMD_PITCH_BEND + channel) % 256 = 0xE0 ||| channel :=
    first_byte_eq_lor MIDI_CMD_PITCH_BEND channel hE hch
  have hsend : ∀ {τ : Type} (u : Transport τ) (v : τ),
      midi_send_pitch_bend (some ⟨some u⟩) channel lsb msb msg0 msg_size0 v
        = (if (u ⟨0xE0 ||| channel, lsb, msb⟩ 3 v).1 = 3 then 0 else -1,
           (u ⟨0xE0 ||| channel, lsb, msb⟩ 3 v).2) := by
    intro τ u v
    rw [midi_send_pitch_bend,
      midi_send_dispatch u MIDI_CMD_PITCH_BEND channel (some lsb) (some msb)
        msg0 msg_size0 v hE hch, hor]
    rfl
  refine ⟨hsend t w, ?_⟩
  rw [hsend (recording reported) log]
  rfl

/-- C12 at channel 15, lsb 0x7F, msb 0x01: the transport receives
`[0xEF, 0x7F, 0x01]` with count 3. -/
theorem C12_send_pitch_bend_bytes_witness :
    midi_send_pitch_bend (some ⟨some faithful⟩) 15 0x7F 0x01
        ⟨0xAA, 0xBB, 0xCC⟩ 0 []
        = (0, [([0xEF, 0x7F, 0x01], 3)]) :=
  (C12_send_pitch_bend_bytes faithful 15 0x7F 0x01 ⟨0xAA, 0xBB, 0xCC⟩ 0 []
    3 [] (by decide)).1.trans (by decide)

/-! ## Initialisation -/

/-- C13: `midi_init` returns 0 if and only if the session and the transport
are both present, and -1 otherwise; on success the session holds exactly
the supplied transport, whatever it held before; on failure the session is
left as it was. -/
theorem C13_init_succeeds_iff_both_present {σ : Type}
    (midi : Option (Midi.midi σ)) (serial_write : Option (Transport σ)) :
    ((midi_init midi serial_write).1 = 0
        ↔ midi.isSome = true ∧ serial_write.isSome = true)
      ∧ ((midi_init midi serial_write).1 = 0
          ∨ (midi_init midi serial_write).1 = -1)
      ∧ ((midi_init midi serial_write).1 = 0 →
          ∃ t, serial_write = some t
            ∧ (midi_init midi serial_write).2 = some ⟨some t⟩)
      ∧ ((midi_init midi serial_write).1 ≠ 0 →
          (midi_init midi serial_write).2 = midi) := by
  cases midi with
  | none =>
    refine ⟨⟨fun h => ?_, fun h => ?_⟩, Or.inr rfl, fun h => ?_, fun _ => rfl⟩
    · simp [midi_init] at h
    · simp at h
    · simp [midi_init] at h
  | some m =>
    cases serial_write with
    | none =>
      refine ⟨⟨fun h => ?_, fun h => ?_⟩, Or.inr rfl, fun h => ?_,
        fun _ => rfl⟩
      · simp [midi_init] at h
      · simp at h
      · simp [midi_init] at h
    | some t =>
      refine ⟨⟨fun _ => ⟨rfl, rfl⟩, fun _ => rfl⟩, Or.inl rfl,
        fun _ => ⟨t, rfl, rfl⟩, fun h => ?_⟩
      exact absurd rfl h

/-- C13 on a session that already holds a transport: a second `midi_init`
with another transport succeeds and installs that one. -/
theorem C13_init_succeeds_iff_both_present_witness :
    ∃ t, some (recording 2) = some t
      ∧ (midi_init (some ⟨some faithful⟩) (some (recording 2))).2
        = some ⟨some t⟩ :=
  (C13_init_succeeds_iff_both_present (some ⟨some faithful⟩)
    (some (recording 2))).2.2.1 rfl

/-! ## Determinism of the builder -/

/-- Two calls with the same four arguments and valid outputs return the
same status and length; the messages agree as well unless parameter1 is
absent while parameter2 is present. -/
theorem midi_make_message_same_arguments (command channel : Nat)
    (param1 param2 : Option Nat) (buf buf2 : Buf) (sz sz2 : Nat) :
    (midi_make_message command channel param1 param2 (some buf)
        (some sz)).retval
        = (midi_make_message command channel param1 param2 (some buf2)
            (some sz2)).retval
      ∧ ((midi_make_message command channel param1 param2 (some buf)
            (some sz)).retval = 0 →
          (midi_make_message command channel param1 param2 (some buf)
              (some sz)).msg_size
            = (midi_make_message command channel param1 param2 (some buf2)
                (some sz2)).msg_size
          ∧ (¬ (param1 = none ∧ param2.isSome = true) →
              (midi_make_message command channel param1 param2 (some buf)
                  (some sz)).message
                = (midi_make_message command channel param1 param2
                    (some buf2) (some sz2)).message)) := by
  by_cases hbad : 15 < channel ∨ command ∉ midi_commands
  · simp [midi_make_message_fail _ _ _ _ _ _ hbad]
  · have hch : channel ≤ 15 := by
      by_contra hc
      exact hbad (Or.inl (by omega))
    have hcmd : command ∈ midi_commands := by
      by_contra hc
      exact hbad (Or.inr hc)
    rw [midi_make_message_ok command channel param1 param2 buf sz hcmd hch,
      midi_make_message_ok command channel param1 param2 buf2 sz2 hcmd hch]
    refine ⟨rfl, fun _ => ⟨rfl, fun hgap => ?_⟩⟩
    cases param1 <;> cases param2 <;>
      simp_all [MakeResult.message, Buf.message, Buf.toList, present]

/-- C14 (the code departs from the claim): Note On, channel 0, parameter1
absent, parameter2 = 0x40, built twice into buffers that differ only in
what index 1 held before.  Both calls return 0 with length 2, but the
messages are `[0x90, 0x11]` and `[0x90, 0x22]`. -/
theorem C14_param2_only_output_depends_on_old_buffer :
    (midi_make_message 0x90 0 none (some 0x40) (some ⟨0, 0x11, 0⟩)
        (some 0)).retval = 0
      ∧ (midi_make_message 0x90 0 none (some 0x40) (some ⟨0, 0x22, 0⟩)
          (some 0)).retval = 0
      ∧ (midi_make_message 0x90 0 none (some 0x40) (some ⟨0, 0x11, 0⟩)
          (some 0)).message = some [0x90, 0x11]
      ∧ (midi_make_message 0x90 0 none (some 0x40) (some ⟨0, 0x22, 0⟩)
          (some 0)).message = some [0x90, 0x22]
      ∧ (midi_make_message 0x90 0 none (some 0x40) (some ⟨0, 0x11, 0⟩)
          (some 0)).message
        ≠ (midi_make_message 0x90 0 none (some 0x40) (some ⟨0, 0x22, 0⟩)
            (some 0)).message := by
  decide

/-! ## Composition and forwarding -/

/-- With valid outputs and a recognised command, the builder fails exactly
when the channel is above 15. -/
theorem midi_make_message_retval_of_command (command channel : Nat)
    (param1 param2 : Option Nat) (buf : Buf) (sz : Nat)
    (hcmd : command ∈ midi_commands) :
    (midi_make_message command channel param1 param2 (some buf)
        (some sz)).retval = if 15 < channel then -1 else 0 := by
  by_cases hch : 15 < channel
  · rw [midi_make_message_fail _ _ _ _ _ _ (Or.inl hch), if_pos hch]
  · rw [midi_make_message_ok command channel param1 param2 buf sz hcmd
      (by omega), if_neg hch]

/-- C15: on a present session `midi_send` is the composition the
specification describes (`send_spec`).  Building fails exactly when the
channel is above 15 or the command is unrecognised, and then `midi_send`
returns -1 with the world untouched (no transport call).  When building
yields bytes and a length, `midi_send` returns what `midi_send_message`
returns for them, and with a transport `t` installed this is exactly one
application of `t` to those bytes and that length. -/
theorem C15_send_is_build_then_dispatch {σ : Type} (m : Midi.midi σ)
    (command channel : Nat) (param1 param2 : Option Nat) (msg0 : Buf)
    (msg_size0 : Nat) (w : σ) :
    midi_send (some m) command channel param1 param2 msg0 msg_size0 w
        = send_spec (some m) command channel param1 param2 msg0 msg_size0 w
      ∧ ((midi_make_message command channel param1 param2 (some msg0)
            (some msg_size0)).retval ≠ 0
          ↔ 15 < channel ∨ command ∉ midi_commands)
      ∧ ((midi_make_message command channel param1 param2 (some msg0)
            (some msg_size0)).retval ≠ 0 →
          midi_send (some m) command channel param1 param2 msg0 msg_size0 w
            = (-1, w))
      ∧ (∀ (bytes : Buf) (length : Nat),
          midi_make_message command channel param1 param2 (some msg0)
              (some msg_size0) = ⟨0, some bytes, some length⟩ →
            midi_send (some m) command channel param1 param2 msg0 msg_size0 w
                = midi_send_message (some m) (some bytes) length w
              ∧ ∀ t, m.serial_write = some t →
                  midi_send (some m) command channel param1 param2 msg0
                      msg_size0 w
                    = (if (t bytes length w).1 = length then 0 else -1,
                       (t bytes length w).2)) := by
  by_cases hbad : 15 < channel ∨ command ∉ midi_commands
  · have hmk := midi_make_message_fail command channel param1 param2
      (some msg0) (some msg_size0) hbad
    have hsend := midi_send_build_fails (some m) command channel param1
      param2 msg0 msg_size0 w hbad
    refine ⟨?_, ?_, fun _ => hsend, ?_⟩
    · rw [hsend]
      simp [send_spec, hmk]
    · rw [hmk]
      simp [hbad]
    · intro bytes length hb
      rw [hmk] at hb
      simp at hb
  · have hch : channel ≤ 15 := by
      by_contra hc
      exact hbad (Or.inl (by omega))
    have hcmd : command ∈ midi_commands := by
      by_contra hc
      exact hbad (Or.inr hc)
    have hmk := midi_make_message_ok command channel param1 param2 msg0
      msg_size0 hcmd hch
    have hsend := midi_send_build_ok m command channel param1 param2 msg0
      msg_size0 w hcmd hch
    refine ⟨?_, ?_, ?_, ?_⟩
    · rw [hsend]
      simp [send_spec, hmk]
    · rw [hmk]
      simp [hbad]
    · intro h
      rw [hmk] at h
      simp at h
    · intro bytes length hb
      rw [hmk] at hb
      injection hb with _ hbuf hlen
      injection hbuf with hbuf
      injection hlen with hlen
      subst hbuf hlen
      refine ⟨hsend, ?_⟩
      intro t ht
      obtain ⟨sw⟩ := m
      simp only at ht
      subst ht
      exact midi_send_dispatch t command channel param1 param2 msg0
        msg_size0 w hcmd hch

/-- C15 at Control Change on channel 2 with a recording transport: the
build gives `[0xB2, 7, 100]` with length 3 and `midi_send` is the single
transport call on these bytes; with channel 16 the build fails and the
record of calls stays empty. -/
theorem C15_send_is_build_then_dispatch_witness :
    midi_send (some ⟨some faithful⟩) 0xB0 2 (some 7) (some 100)
        ⟨0xAA, 0xBB, 0xCC⟩ 0 []
        = (0, [([0xB2, 7, 100], 3)])
      ∧ midi_send (some ⟨some faithful⟩) 0xB0 16 (some 7) (some 100)
          ⟨0xAA, 0xBB, 0xCC⟩ 0 []
        = (-1, []) :=
  ⟨(((C15_send_is_build_then_dispatch ⟨some faithful⟩ 0xB0 2 (some 7)
        (some 100) ⟨0xAA, 0xBB, 0xCC⟩ 0 []).2.2.2 ⟨0xB2, 7, 100⟩ 3
        (by decide)).2 faithful rfl).trans (by decide),
   (C15_send_is_build_then_dispatch ⟨some faithful⟩ 0xB0 16 (some 7)
      (some 100) ⟨0xAA, 0xBB, 0xCC⟩ 0 []).2.2.1 (by decide)⟩

/-- C16: each of the six per-command build operations equals
`midi_make_message` with its command constant fixed, for every input: Note
Off, Note On, Aftertouch, Control Change and Pitch Bend pass 0x80, 0x90,
0xA0, 0xB0, 0xE0 with both parameters present, Program Change passes 0xC0
with parameter1 present and parameter2 absent.  With valid outputs each of
them returns -1 exactly when the channel is above 15, and 0 otherwise. -/
theorem C16_build_wrappers_forward (channel a b : Nat) (msg : Option Buf)
    (msg_size : Option Nat) (buf : Buf) (sz : Nat) :
    (midi_make_message_note_off channel a b msg msg_size
          = midi_make_message 0x80 channel (some a) (some b) msg msg_size
        ∧ midi_make_message_note_on channel a b msg msg_size
          = midi_make_message 0x90 channel (some a) (some b) msg msg_size
        ∧ midi_make_message_aftertouch channel a b msg msg_size
          = midi_make_message 0xA0 channel (some a) (some b) msg msg_size
        ∧ midi_make_message_control_change channel a b msg msg_size
          = midi_make_message 0xB0 channel (some a) (some b) msg msg_size
        ∧ midi_make_message_program_change channel a msg msg_size
          = midi_make_message 0xC0 channel (some a) none msg msg_size
        ∧ midi_make_message_pitch_bend channel a b msg msg_size
          = midi_make_message 0xE0 channel (some a) (some b) msg msg_size)
      ∧ ((midi_make_message_note_off channel a b (some buf) (some sz)).retval
          = (if 15 < channel then -1 else 0)
        ∧ (midi_make_message_note_on channel a b (some buf) (some sz)).retval
          = (if 15 < channel then -1 else 0)
        ∧ (midi_make_message_aftertouch channel a b (some buf)
            (some sz)).retval = (if 15 < channel then -1 else 0)
        ∧ (midi_make_message_control_change channel a b (some buf)
            (some sz)).retval = (if 15 < channel then -1 else 0)
        ∧ (midi_make_message_program_change channel a (some buf)
            (some sz)).retval = (if 15 < channel then -1 else 0)
        ∧ (midi_make_message_pitch_bend channel a b (some buf)
            (some sz)).retval = (if 15 < channel then -1 else 0)) :=
  ⟨⟨rfl, rfl, rfl, rfl, rfl, rfl⟩,
   midi_make_message_retval_of_command _ channel _ _ buf sz (by decide),
   midi_make_message_retval_of_command _ channel _ _ buf sz (by decide),
   midi_make_message_retval_of_command _ channel _ _ buf sz (by decide),
   midi_make_message_retval_of_command _ channel _ _ buf sz (by decide),
   midi_make_message_retval_of_command _ channel _ _ buf sz (by decide),
   midi_make_message_retval_of_command _ channel _ _ buf sz (by decide)⟩

/-! ## Session invariant -/

/-- An operation either leaves the session as it is, or it is a
`midi_init` with a present transport and the session then holds that
transport. -/
theorem step_session {σ : Type} (c : Config σ) (op : Op σ) :
    (step c op).session = c.session
      ∨ ∃ t, op = Op.init (some t) ∧ (step c op).session = ⟨some t⟩ := by
  cases op with
  | init serial_write =>
    cases serial_write with
    | none => exact Or.inl rfl
    | some t => exact Or.inr ⟨t, rfl, rfl⟩
  | _ => exact Or.inl rfl

/-- A session with a transport installed keeps one through any sequence of
operations. -/
theorem run_keeps_transport {σ : Type} (ops : List (Op σ)) :
    ∀ c : Config σ, c.session.serial_write.isSome = true →
      (run c ops).session.serial_write.isSome = true := by
  induction ops with
  | nil => intro c h; exact h
  | cons op rest ih =>
    intro c h
    have hstep : (step c op).session.serial_write.isSome = true := by
      rcases step_session c op with heq | ⟨t, _, heq⟩
      · rw [heq]; exact h
      · rw [heq]; rfl
    exact ih (step c op) hstep

/-- A sequence of operations without a `midi_init` that supplies a
transport leaves the session as it is. -/
theorem run_without_init {σ : Type} (ops : List (Op σ)) :
    ∀ c : Config σ, (∀ u, Op.init (some u) ∉ ops) →
      (run c ops).session = c.session := by
  induction ops with
  | nil => intro c _; rfl
  | cons op rest ih =>
    intro c h
    have hrest : ∀ u, Op.init (some u) ∉ rest :=
      fun u hu => h u (List.mem_cons_of_mem op hu)
    have hstep : (step c op).session = c.session := by
      rcases step_session c op with heq | ⟨t, hop, _⟩
      · exact heq
      · exact absurd (hop ▸ List.mem_cons_self op rest) (h t)
    exact (ih (step c op) hrest).trans hstep

/-- C17: once a successful `midi_init` has installed a transport `t`, every
operation other than a `midi_init` with a present transport (the generic
and per-command sends, `midi_send_message`, the build operations, and
`midi_init` with an absent transport) leaves `t` installed; a `midi_init`
with a present transport `u` installs `u`; hence after any sequence of
operations a transport is installed, and it still is `t` if no `midi_init`
with a present transport occurred. -/
theorem C17_session_stays_initialized {σ : Type} (m : Midi.midi σ) (w : σ)
    (t : Transport σ) :
    (step ⟨m, w⟩ (Op.init (some t))).session.serial_write = some t
      ∧ (∀ op, (∀ u, op ≠ Op.init (some u)) →
          (step (step ⟨m, w⟩ (Op.init (some t))) op).session.serial_write
            = some t)
      ∧ (step (step ⟨m, w⟩ (Op.init (some t))) (Op.init none)).session.serial_write
          = some t
      ∧ (∀ u, (step (step ⟨m, w⟩ (Op.init (some t)))
            (Op.init (some u))).session.serial_write = some u)
      ∧ (∀ ops, (run (step ⟨m, w⟩ (Op.init (some t)))
            ops).session.serial_write.isSome = true)
      ∧ (∀ ops, (∀ u, Op.init (some u) ∉ ops) →
          (run (step ⟨m, w⟩ (Op.init (some t))) ops).session.serial_write
            = some t) := by
  refine ⟨rfl, ?_, rfl, fun _ => rfl, ?_, ?_⟩
  · intro op hop
    rcases step_session (step ⟨m, w⟩ (Op.init (some t))) op with
      heq | ⟨u, hu, _⟩
    · rw [heq]; rfl
    · exact absurd hu (hop u)
  · intro ops
    exact run_keeps_transport ops _ rfl
  · intro ops hops
    rw [run_without_init ops _ hops]
    rfl

/-- C17 on a fresh session initialised with a recording transport: after a
Note On send, a failing `midi_init`, a send of a bad length and a build,
the transport is still the one installed, and it has seen exactly the one
Note On message. -/
theorem C17_session_stays_initialized_witness :
    (run (step ⟨⟨none⟩, []⟩ (Op.init (some faithful)))
        [Op.send_note_on 0 60 100 ⟨0, 0, 0⟩ 0, Op.init none,
         Op.send_message (some ⟨1, 2, 3⟩) 4,
         Op.make_message 0x90 0 none none none none]).session.serial_write
        = some faithful
      ∧ (run (step ⟨⟨none⟩, []⟩ (Op.init (some faithful)))
          [Op.send_note_on 0 60 100 ⟨0, 0, 0⟩ 0, Op.init none,
           Op.send_message (some ⟨1, 2, 3⟩) 4,
           Op.make_message 0x90 0 none none none none]).world
        = [([0x90, 60, 100], 3)] :=
  ⟨(C17_session_stays_initialized ⟨none⟩ [] faithful).2.2.2.2.2
      [Op.send_note_on 0 60 100 ⟨0, 0, 0⟩ 0, Op.init none,
       Op.send_message (some ⟨1, 2, 3⟩) 4,
       Op.make_message 0x90 0 none none none none]
      (by
        intro u hu
        simp at hu),
   by decide⟩

/-! ## Status byte decoding and failure atomicity -/

/-- For a recognised command and a channel of at most 15, the byte the
builder stores at index 0 has the command as its high nibble, the channel
as its low nibble, and is at least 0x80. -/
theorem first_byte_decodes (command channel : Nat)
    (hcmd : command ∈ midi_commands) (hch : channel ≤ 15) :
    ((command + channel) % 256) &&& 0xF0 = command
      ∧ ((command + channel) % 256) &&& 0x0F = channel
      ∧ 0x80 ≤ (command + channel) % 256 := by
  simp only [midi_commands, MIDI_CMD_NOTE_OFF, MIDI_CMD_NOTE_ON,
    MIDI_CMD_AFTERTOUCH, MIDI_CMD_CONTROL_CHANGE, MIDI_CMD_PROGRAM_CHANGE,
    MIDI_CMD_CHANNEL_PRESSUER, MIDI_CMD_PITCH_BEND, MIDI_CMD_NON_MUSICAL,
    List.mem_cons, List.mem_singleton, List.not_mem_nil, or_false] at hcmd
  rcases hcmd with h | h | h | h | h | h | h | h <;> subst h <;>
    interval_cases channel <;> decide

/-- A successful call stored `(command + channel) % 256` at index 0. -/
theorem midi_make_message_status_byte (command channel : Nat)
    (param1 param2 : Option Nat) (msg : Option Buf) (msg_size : Option Nat)
    (hok : (midi_make_message command channel param1 param2 msg
      msg_size).retval = 0) :
    (midi_make_message command channel param1 param2 msg msg_size).msg.map
        Buf.b0 = some ((command + channel) % 256)
      ∧ channel ≤ 15 ∧ command ∈ midi_commands := by
  obtain ⟨⟨buf, sz, hmsg, hsz⟩, hch, hcmd⟩ :=
    midi_make_message_success_inv command channel param1 param2 msg msg_size
      hok
  subst hmsg hsz
  rw [midi_make_message_ok command channel param1 param2 buf sz hcmd hch]
  exact ⟨rfl, hch, hcmd⟩

/-- C18: the status byte of a successfully built message decodes back to
its inputs: `status & 0xF0` is the command, `status & 0x0F` is the channel,
and the status byte is at least 0x80; so two successful builds whose
(command, channel) pairs differ have different status bytes. -/
theorem C18_status_byte_decodes (command channel : Nat)
    (param1 param2 : Option Nat) (msg : Option Buf) (msg_size : Option Nat)
    (command2 channel2 : Nat) (param3 param4 : Option Nat)
    (msg2 : Option Buf) (msg_size2 : Option Nat)
    (hok : (midi_make_message command channel param1 param2 msg
      msg_size).retval = 0)
    (hok2 : (midi_make_message command2 channel2 param3 param4 msg2
      msg_size2).retval = 0) :
    ∃ status status2,
      (midi_make_message command channel param1 param2 msg msg_size).msg.map
          Buf.b0 = some status
        ∧ (midi_make_message command2 channel2 param3 param4 msg2
            msg_size2).msg.map Buf.b0 = some status2
        ∧ status &&& 0xF0 = command
        ∧ status &&& 0x0F = channel
        ∧ 0x80 ≤ status
        ∧ ((command, channel) ≠ (command2, channel2) → status ≠ status2) := by
  obtain ⟨hb, hch, hcmd⟩ := midi_make_message_status_byte command channel
    param1 param2 msg msg_size hok
  obtain ⟨hb2, hch2, hcmd2⟩ := midi_make_message_status_byte command2
    channel2 param3 param4 msg2 msg_size2 hok2
  obtain ⟨hhi, hlo, hge⟩ := first_byte_decodes command channel hcmd hch
  obtain ⟨hhi2, hlo2, _⟩ := first_byte_decodes command2 channel2 hcmd2 hch2
  refine ⟨_, _, hb, hb2, hhi, hlo, hge, ?_⟩
  intro hne heq
  apply hne
  have hc : command = command2 := by
    calc command = ((command + channel) % 256) &&& 0xF0 := hhi.symm
      _ = ((command2 + channel2) % 256) &&& 0xF0 := by rw [heq]
      _ = command2 := hhi2
  have hl : channel = channel2 := by
    calc channel = ((command + channel) % 256) &&& 0x0F := hlo.symm
      _ = ((command2 + channel2) % 256) &&& 0x0F := by rw [heq]
      _ = channel2 := hlo2
  rw [hc, hl]

/-- C18 at Note On on channel 3 against Control Change on channel 3: the
status bytes are 0x93 and 0xB3. -/
theorem C18_status_byte_decodes_witness :
    ∃ status status2,
      (midi_make_message 0x90 3 (some 60) (some 100) (some ⟨0, 0, 0⟩)
          (some 0)).msg.map Buf.b0 = some status
        ∧ (midi_make_message 0xB0 3 (some 7) none (some ⟨0, 0, 0⟩)
            (some 0)).msg.map Buf.b0 = some status2
        ∧ status &&& 0xF0 = 0x90
        ∧ status &&& 0x0F = 3
        ∧ 0x80 ≤ status
        ∧ (((0x90 : Nat), (3 : Nat)) ≠ (0xB0, 3) → status ≠ status2) :=
  C18_status_byte_decodes 0x90 3 (some 60) (some 100) (some ⟨0, 0, 0⟩)
    (some 0) 0xB0 3 (some 7) none (some ⟨0, 0, 0⟩) (some 0) (by decide)
    (by decide)

/-- C19: whenever `midi_make_message` returns -1, the output buffer and
the length output hold what they held before the call; and with valid
outputs it returns -1 exactly when the channel is above 15 or the command
is unrecognised. -/
theorem C19_failure_leaves_outputs_untouched (command channel : Nat)
    (param1 param2 : Option Nat) (msg : Option Buf) (msg_size : Option Nat)
    (buf : Buf) (sz : Nat) :
    ((midi_make_message command channel param1 param2 msg msg_size).retval
          = -1 →
        (midi_make_message command channel param1 param2 msg msg_size).msg
            = msg
          ∧ (midi_make_message command channel param1 param2 msg
              msg_size).msg_size = msg_size)
      ∧ ((midi_make_message command channel param1 param2 (some buf)
            (some sz)).retval = -1
          ↔ 15 < channel ∨ command ∉ midi_commands) := by
  constructor
  · intro hfail
    by_cases hbad : 15 < channel ∨ command ∉ midi_commands
    · rw [midi_make_message_fail _ _ _ _ _ _ hbad]
      exact ⟨rfl, rfl⟩
    · have hch : channel ≤ 15 := by
        by_contra hc
        exact hbad (Or.inl (by omega))
      have hcmd : command ∈ midi_commands := by
        by_contra hc
        exact hbad (Or.inr hc)
      cases msg with
      | none => exact ⟨rfl, rfl⟩
      | some b =>
        cases msg_size with
        | none => exact ⟨rfl, rfl⟩
        | some n =>
          rw [midi_make_message_ok command channel param1 param2 b n hcmd
            hch] at hfail
          simp at hfail
  · by_cases hbad : 15 < channel ∨ command ∉ midi_commands
    · rw [midi_make_message_fail _ _ _ _ _ _ hbad]
      simp [hbad]
    · have hch : channel ≤ 15 := by
        by_contra hc
        exact hbad (Or.inl (by omega))
      have hcmd : command ∈ midi_commands := by
        by_contra hc
        exact hbad (Or.inr hc)
      rw [midi_make_message_ok command channel param1 param2 buf sz hcmd hch]
      simp [hbad]

/-- C19 at the unrecognised command 0x95 with both parameters present: the
buffer `1 2 3` and the length 9 are still there after the call. -/
theorem C19_failure_leaves_outputs_untouched_witness :
    (midi_make_message 0x95 0 (some 60) (some 100) (some ⟨1, 2, 3⟩)
        (some 9)).msg = some ⟨1, 2, 3⟩
      ∧ (midi_make_message 0x95 0 (some 60) (some 100) (some ⟨1, 2, 3⟩)
          (some 9)).msg_size = some 9 :=
  (C19_failure_leaves_outputs_untouched 0x95 0 (some 60) (some 100)
    (some ⟨1, 2, 3⟩) (some 9) ⟨0, 0, 0⟩ 0).1 (by decide)

end Midi
